import Mathlib

/- Shallow embedding of the Google Docs tool layer of this repository
   (gdocs/docs_tools.py), together with spec-modelled versions of the helper
   modules (gdocs/docs_helpers, gdocs/managers, gdocs/docs_structure,
   core/utils) that docs_tools.py imports but whose sources are not part of
   this snapshot. -/

/-- Low-level batchUpdate request descriptors, one constructor per request
builder imported from gdocs/docs_helpers. Modelled from the spec: section 4.6
describes each builder as a pure mapping from typed parameters to one
operation descriptor, so the builders are embedded as the constructors of
this closed union. -/
inductive Request where
  | insertText (index : Int) (text : String)
  | deleteRange (startIndex endIndex : Int)
  | formatText (startIndex : Int) (endIndex : Option Int) (bold italic underline : Option Bool) (fontSize : Option Int) (fontFamily : Option String)
  | insertTable (index rows columns : Int)
  | insertPageBreak (index : Int)
  | insertImage (index : Int) (uri : String) (width height : Option Int)
  | bulletList (startIndex endIndex : Int) (listType : String)
  | findReplace (findText replaceText : String) (matchCase : Bool)
  deriving DecidableEq, Repr

/-- Python truthiness of an optional integer parameter: None and 0 are falsy. -/
def truthyInt : Option Int → Bool
  | some n => n != 0
  | none => false

/-- Python truthiness of an optional string parameter: None and the empty
string are falsy. -/
def truthyStr : Option String → Bool
  | some s => s != ""
  | none => false

/-- Modelled from the spec: ValidationManager.validate_document_id of
gdocs/managers (absent from this snapshot); section 4.2 calls it a format
check, modelled as rejecting an empty id. -/
def validate_document_id (document_id : String) : Bool × String :=
  if document_id = "" then (false, "Document ID cannot be empty")
  else (true, "")

/-- Modelled from the spec: ValidationManager.validate_index_range of
gdocs/managers (absent from this snapshot); per sections 4.2 and 8 it fails if
start is negative and whenever end is not strictly greater than start. -/
def validate_index_range (start_index end_index : Int) : Bool × String :=
  if start_index < 0 then (false, "start_index must be non-negative")
  else if end_index ≤ start_index then (false, "end_index must be greater than start_index")
  else (true, "")

/-- Modelled from the spec: ValidationManager.validate_text_formatting_params
of gdocs/managers (absent from this snapshot); fails if no formatting field at
all is set, or if font_size is provided and not positive. -/
def validate_text_formatting_params (bold italic underline : Option Bool) (font_size : Option Int) (font_family : Option String) : Bool × String :=
  if bold.isNone ∧ italic.isNone ∧ underline.isNone ∧ font_size.isNone ∧ font_family.isNone then
    (false, "At least one formatting parameter must be provided")
  else
    match font_size with
    | some n => if n ≤ 0 then (false, "font_size must be positive") else (true, "")
    | none => (true, "")

/-- Parameters of the modify_doc_text tool (docs_tools.py line 310). -/
structure ModifyArgs where
  document_id : String
  start_index : Int
  end_index : Option Int
  text : Option String
  bold : Option Bool
  italic : Option Bool
  underline : Option Bool
  font_size : Option Int
  font_family : Option String
  deriving Repr

/-- The python expression any([bold is not None, italic is not None,
underline is not None, font_size, font_family]) used at docs_tools.py lines
339, 343 and 384; font_size and font_family count by truthiness. -/
def fmtRequested (a : ModifyArgs) : Bool :=
  a.bold.isSome || a.italic.isSome || a.underline.isSome || truthyInt a.font_size || truthyStr a.font_family

/-- Validation phase of modify_doc_text (docs_tools.py lines 331-354): the
failure message of the first failing check, if any. -/
def modifyValidation (a : ModifyArgs) : Option String :=
  if (validate_document_id a.document_id).1 = false then some (validate_document_id a.document_id).2
  else if a.text = none ∧ fmtRequested a = false then
    some "Must provide either text to insert/replace, or formatting parameters (bold, italic, underline, font_size, font_family)."
  else if fmtRequested a then
    if (validate_text_formatting_params a.bold a.italic a.underline a.font_size a.font_family).1 = false then
      some (validate_text_formatting_params a.bold a.italic a.underline a.font_size a.font_family).2
    else
      match a.end_index with
      | none => some "end_index is required when applying formatting."
      | some e =>
        if (validate_index_range a.start_index e).1 = false then some (validate_index_range a.start_index e).2
        else none
  else none

/-- Text insertion and replacement requests built by modify_doc_text
(docs_tools.py lines 360-381): a replacement starting at 0 becomes an insert
at index 1 followed by a delete of the shifted old range; an insertion
requested at 0 is emitted at index 1. -/
def textRequests (a : ModifyArgs) : List Request :=
  match a.text with
  | none => []
  | some t =>
    match a.end_index with
    | some e =>
      if a.start_index < e then
        if a.start_index = 0 then
          [Request.insertText 1 t, Request.deleteRange (1 + (t.length : Int)) (e + (t.length : Int))]
        else
          [Request.deleteRange a.start_index e, Request.insertText a.start_index t]
      else
        [Request.insertText (if a.start_index = 0 then 1 else a.start_index) t]
    | none => [Request.insertText (if a.start_index = 0 then 1 else a.start_index) t]

/-- Formatting request built by modify_doc_text (docs_tools.py lines 384-405),
including the range adjustment after a text change, the index-0 bump and the
widening of degenerate ranges to start + 1. -/
def formatRequests (a : ModifyArgs) : List Request :=
  if fmtRequested a then
    let p : Int × Option Int :=
      match a.text with
      | some t =>
        (match a.end_index with
         | some e =>
           if a.start_index < e then (a.start_index, some (a.start_index + (t.length : Int)))
           else ((if a.start_index = 0 then 1 else a.start_index), some ((if a.start_index = 0 then 1 else a.start_index) + (t.length : Int)))
         | none => ((if a.start_index = 0 then 1 else a.start_index), some ((if a.start_index = 0 then 1 else a.start_index) + (t.length : Int))))
      | none => (a.start_index, a.end_index)
    let fs : Int := if p.1 = 0 then 1 else p.1
    let fe : Option Int :=
      match p.2 with
      | some v => some (if v ≤ fs then fs + 1 else v)
      | none => none
    [Request.formatText fs fe a.bold a.italic a.underline a.font_size a.font_family]
  else []

/-- The full request batch built by modify_doc_text (docs_tools.py lines
356-419). -/
def modifyRequests (a : ModifyArgs) : List Request :=
  textRequests a ++ formatRequests a

/-- Rendering of the confirmation message of modify_doc_text (abridged: the
operation summary details are not load-bearing for any claim). -/
def modifySummary (a : ModifyArgs) : String :=
  "Operations applied in document " ++ a.document_id ++ ". Link: https://docs.google.com/document/d/" ++ a.document_id ++ "/edit"

/-- A tool run: the payloads of the batchUpdate network calls issued, and the
text returned to the caller. -/
structure ToolRun where
  batches : List (List Request)
  output : String
  deriving Repr

/-- The modify_doc_text tool (docs_tools.py lines 310-431): validation first
(each failure returned with an Error: prefix and no network call), then a
single batchUpdate call carrying the built requests. -/
def modify_doc_text (a : ModifyArgs) : ToolRun :=
  match modifyValidation a with
  | some msg => { batches := [], output := "Error: " ++ msg }
  | none => { batches := [modifyRequests a], output := modifySummary a }

/-- All requests transmitted over the network during a tool run. -/
def emittedOf (t : ToolRun) : List Request :=
  t.batches.flatten

/-- Parameters of the insert_doc_elements tool (docs_tools.py line 475). -/
structure ElemArgs where
  document_id : String
  element_type : String
  index : Int
  rows : Option Int
  columns : Option Int
  list_type : Option String
  text : Option String
  deriving Repr

/-- The index bump of docs_tools.py lines 496-498 and 566-568: an index of 0
is moved to 1 to avoid the first section break. -/
def bumpIndex (index : Int) : Int :=
  if index = 0 then 1 else index

/-- The list item text defaulting of docs_tools.py lines 513-514: a falsy
text parameter becomes the default List item. -/
def elemListText (text : Option String) : String :=
  match text with
  | some s => if s = "" then "List item" else s
  | none => "List item"

/-- The insert_doc_elements tool (docs_tools.py lines 475-538): index 0 is
bumped to 1 before any request is built. -/
def insert_doc_elements (a : ElemArgs) : ToolRun :=
  if a.element_type = "table" then
    if truthyInt a.rows = false ∨ truthyInt a.columns = false then
      { batches := [], output := "Error: rows and columns parameters are required for table insertion." }
    else
      { batches := [[Request.insertTable (bumpIndex a.index) (a.rows.getD 0) (a.columns.getD 0)]],
        output := "Inserted table at index " ++ toString (bumpIndex a.index) ++ " in document " ++ a.document_id ++ "." }
  else if a.element_type = "list" then
    if truthyStr a.list_type = false then
      { batches := [], output := "Error: list_type parameter is required for list insertion (UNORDERED or ORDERED)." }
    else
      { batches := [[Request.insertText (bumpIndex a.index) (elemListText a.text ++ "\n"),
                     Request.bulletList (bumpIndex a.index) (bumpIndex a.index + ((elemListText a.text).length : Int)) (a.list_type.getD "")]],
        output := "Inserted list at index " ++ toString (bumpIndex a.index) ++ " in document " ++ a.document_id ++ "." }
  else if a.element_type = "page_break" then
    { batches := [[Request.insertPageBreak (bumpIndex a.index)]],
      output := "Inserted page break at index " ++ toString (bumpIndex a.index) ++ " in document " ++ a.document_id ++ "." }
  else
    { batches := [], output := "Error: Unsupported element type " ++ a.element_type ++ ". Supported types: table, list, page_break." }

/-- Parameters of the insert_doc_image tool (docs_tools.py line 546). -/
structure ImageArgs where
  document_id : String
  image_source : String
  index : Int
  width : Option Int
  height : Option Int
  deriving Repr

/-- The insert_doc_image tool (docs_tools.py lines 546-609); the Drive
metadata lookup is abstracted as its outcome (an exception message, or mime
type and file name). Index 0 is bumped to 1 before the request is built. -/
def insert_doc_image (driveLookup : Except String (String × String)) (a : ImageArgs) : ToolRun :=
  if !(a.image_source.startsWith "http://" || a.image_source.startsWith "https://") then
    match driveLookup with
    | Except.error e =>
      { batches := [], output := "Error: Could not access Drive file " ++ a.image_source ++ ": " ++ e }
    | Except.ok (mimeType, _name) =>
      if !(mimeType.startsWith "image/") then
        { batches := [], output := "Error: File " ++ a.image_source ++ " is not an image (MIME type: " ++ mimeType ++ ")." }
      else
        { batches := [[Request.insertImage (bumpIndex a.index) ("https://drive.google.com/uc?id=" ++ a.image_source) a.width a.height]],
          output := "Inserted Drive file image at index " ++ toString (bumpIndex a.index) ++ "." }
  else
    { batches := [[Request.insertImage (bumpIndex a.index) a.image_source a.width a.height]],
      output := "Inserted URL image at index " ++ toString (bumpIndex a.index) ++ "." }

/-- Modelled from the spec: ValidationManager.validate_header_footer_params of
gdocs/managers (absent from this snapshot); section type must be header or
footer, variant must be one of the three supported kinds. -/
def validate_header_footer_params (section_type header_footer_type : String) : Bool × String :=
  if section_type ≠ "header" ∧ section_type ≠ "footer" then
    (false, "section_type must be header or footer")
  else if header_footer_type ≠ "DEFAULT" ∧ header_footer_type ≠ "FIRST_PAGE_ONLY" ∧ header_footer_type ≠ "EVEN_PAGE" then
    (false, "header_footer_type must be DEFAULT, FIRST_PAGE_ONLY or EVEN_PAGE")
  else (true, "")

/-- Modelled from the spec: ValidationManager.validate_text_content of
gdocs/managers (absent from this snapshot); the non-empty content check of
section 2. -/
def validate_text_content (content : String) : Bool × String :=
  if content = "" then (false, "Content cannot be empty") else (true, "")

/-- Parameters of the update_doc_headers_footers tool (docs_tools.py line 614). -/
structure HFArgs where
  document_id : String
  section_type : String
  content : String
  header_footer_type : String
  deriving Repr

/-- Validation phase of update_doc_headers_footers (docs_tools.py lines
630-643). -/
def hfValidation (a : HFArgs) : Option String :=
  if (validate_document_id a.document_id).1 = false then some (validate_document_id a.document_id).2
  else if (validate_header_footer_params a.section_type a.header_footer_type).1 = false then
    some (validate_header_footer_params a.section_type a.header_footer_type).2
  else if (validate_text_content a.content).1 = false then some (validate_text_content a.content).2
  else none

/-- A run of update_doc_headers_footers: how many times the manager (and hence
the network) was invoked, and the returned text. -/
structure HFRun where
  mgrCalls : Nat
  output : String
  deriving Repr

/-- The update_doc_headers_footers tool (docs_tools.py lines 614-656); the
HeaderFooterManager call is abstracted as its (success, message) outcome. -/
def update_doc_headers_footers (mgr : Unit → Bool × String) (a : HFArgs) : HFRun :=
  match hfValidation a with
  | some msg => { mgrCalls := 0, output := "Error: " ++ msg }
  | none =>
    let r := mgr ()
    if r.1 then
      { mgrCalls := 1, output := r.2 ++ ". Link: https://docs.google.com/document/d/" ++ a.document_id ++ "/edit" }
    else { mgrCalls := 1, output := "Error: " ++ r.2 }

/-- Caller-supplied batch operation intents accepted by batch_update_doc.
Modelled from the spec (section 4.5): a closed union of the supported types,
with unknown standing for an element naming an unsupported type. -/
inductive BatchIntent where
  | insert_text (index : Int) (text : String)
  | delete_text (start_index end_index : Int)
  | replace_text (start_index end_index : Int) (text : String)
  | format_text (start_index end_index : Int) (bold italic underline : Option Bool) (font_size : Option Int) (font_family : Option String)
  | insert_table (index rows columns : Int)
  | insert_page_break (index : Int)
  | unknown (op_type : String)
  deriving DecidableEq, Repr

/-- Modelled from the spec: ValidationManager.validate_batch_operations of
gdocs/managers (absent from this snapshot); fails on an empty list (section 8
requires a descriptive message there) and on an element naming an unknown
operation type. -/
def validate_batch_operations (operations : List BatchIntent) : Bool × String :=
  if operations.isEmpty then (false, "Operations list cannot be empty")
  else if operations.any (fun o => match o with | BatchIntent.unknown _ => true | _ => false) then
    (false, "Unknown operation type in operations list")
  else (true, "")

/-- Validation phase of batch_update_doc (docs_tools.py lines 676-684). -/
def batchValidation (document_id : String) (operations : List BatchIntent) : Option String :=
  if (validate_document_id document_id).1 = false then some (validate_document_id document_id).2
  else if (validate_batch_operations operations).1 = false then some (validate_batch_operations operations).2
  else none

/-- A run of batch_update_doc: the operation lists the BatchOperationManager
was invoked with, and the returned text. -/
structure BatchRun where
  mgrCalls : List (List BatchIntent)
  output : String
  deriving Repr

/-- The batch_update_doc tool (docs_tools.py lines 661-698); the
BatchOperationManager is abstracted as its (success, message, replies count)
outcome. -/
def batch_update_doc (mgr : List BatchIntent → Bool × String × Nat) (document_id : String) (operations : List BatchIntent) : BatchRun :=
  match batchValidation document_id operations with
  | some msg => { mgrCalls := [], output := "Error: " ++ msg }
  | none =>
    if (mgr operations).1 then
      { mgrCalls := [operations],
        output := (mgr operations).2.1 ++ " on document " ++ document_id ++ ". API replies: " ++ toString (mgr operations).2.2 ++ "." }
    else { mgrCalls := [operations], output := "Error: " ++ (mgr operations).2.1 }

/-- Modelled from the spec: ValidationManager.validate_table_data of
gdocs/managers (absent from this snapshot); a non-empty rectangular grid of
strings is required (empty strings are permitted as cell values). -/
def validate_table_data (table_data : List (List String)) : Bool × String :=
  if table_data.isEmpty then (false, "Table data cannot be empty")
  else if table_data.all (fun row => row.length = (table_data.headD []).length) then (true, "")
  else (false, "All rows must have the same number of columns")

/-- Modelled from the spec: ValidationManager.validate_index of gdocs/managers
(absent from this snapshot); a non-negativity check. -/
def validate_index (index : Int) : Bool × String :=
  if index < 0 then (false, "Index must be non-negative") else (true, "")

/-- Parameters of the create_table_with_data tool (docs_tools.py line 814). -/
structure TableArgs where
  document_id : String
  table_data : List (List String)
  index : Int
  bold_headers : Bool
  deriving Repr

/-- Validation phase of create_table_with_data (docs_tools.py lines 858-871). -/
def tableValidation (a : TableArgs) : Option String :=
  if (validate_document_id a.document_id).1 = false then some (validate_document_id a.document_id).2
  else if (validate_table_data a.table_data).1 = false then some (validate_table_data a.table_data).2
  else if (validate_index a.index).1 = false then some (validate_index a.index).2
  else none

/-- Outcome of one TableOperationManager.create_and_populate_table attempt. -/
structure MgrResult where
  success : Bool
  message : String
  rows : Int
  columns : Int
  deriving Repr

/-- Whether one character list starts with another. -/
def isPrefixChars : List Char → List Char → Bool
  | [], _ => true
  | _ :: _, [] => false
  | a :: as, b :: bs => (a == b) && isPrefixChars as bs

/-- Whether one character list occurs contiguously inside another. -/
def containsChars (needle : List Char) : List Char → Bool
  | [] => isPrefixChars needle []
  | c :: rest => isPrefixChars needle (c :: rest) || containsChars needle rest

/-- Python substring containment: needle in haystack. -/
def strContains (haystack needle : String) : Bool :=
  containsChars needle.data haystack.data

/-- The boundary-error fragment tested at docs_tools.py line 882. -/
def boundaryNeedle : String := "must be less than the end index"

/-- A run of create_table_with_data: the insertion indices the
TableOperationManager was invoked with (the document id, table data and
bold flag are the same on every attempt), and the returned text. -/
structure TableRun where
  attempts : List Int
  output : String
  deriving Repr

/-- Rendering of create_table_with_data's final result from the last manager
outcome (docs_tools.py lines 888-895); the reported index is the originally
requested one. -/
def tableResultRender (origIndex : Int) (attempts : List Int) (r : MgrResult) : TableRun :=
  if r.success then
    { attempts := attempts,
      output := "SUCCESS: " ++ r.message ++ ". Table: " ++ toString r.rows ++ "x" ++ toString r.columns ++ ", Index: " ++ toString origIndex ++ "." }
  else { attempts := attempts, output := "ERROR: " ++ r.message }

/-- The create_table_with_data tool (docs_tools.py lines 814-895); the
TableOperationManager is abstracted as a function from the attempted insertion
index to its outcome. A failed first attempt whose message contains the
boundary-error text triggers exactly one retry at index - 1 (lines 876-886). -/
def create_table_with_data (mgr : Int → MgrResult) (a : TableArgs) : TableRun :=
  match tableValidation a with
  | some msg => { attempts := [], output := "ERROR: " ++ msg }
  | none =>
    if (mgr a.index).success = false ∧ strContains (mgr a.index).message boundaryNeedle = true then
      tableResultRender a.index [a.index, a.index - 1] (mgr (a.index - 1))
    else tableResultRender a.index [a.index] (mgr a.index)

/-- Modelled from the spec: the insertion offset of cell (r, c) of a freshly
inserted rows x cols table at index idx (section 4.1: the first usable offset
strictly inside the cell's own boundary), under the token layout of
initialTableDoc below: one table marker, then per row a row marker followed,
per cell, by a cell marker and a paragraph marker; cell content sits right
after the paragraph marker. -/
def cellIns (idx cols r c : Nat) : Nat :=
  idx + 4 + r * (2 * cols + 1) + 2 * c

/-- Modelled from the spec: one row of the population pass of
TableOperationManager.create_and_populate_table of gdocs/managers (absent from
this snapshot); emits one InsertText per non-empty cell value (section 4.3
step 3), tracking the offset drift caused by earlier insertions of the same
pass. Arguments after the row number: column counter, running drift,
remaining cell values; returns the requests and the final drift. -/
def populateRowOps (idx cols r : Nat) : Nat → Nat → List String → List Request × Nat
  | _, drift, [] => ([], drift)
  | c, drift, v :: vs =>
    if v = "" then populateRowOps idx cols r (c + 1) drift vs
    else
      let rest := populateRowOps idx cols r (c + 1) (drift + v.length) vs
      (Request.insertText ((cellIns idx cols r c + drift : Nat) : Int) v :: rest.1, rest.2)

/-- Modelled from the spec: population of the remaining (data) rows, row by
row, continuing the drift. -/
def populateRowsOps (idx cols : Nat) : Nat → Nat → List (List String) → List Request × Nat
  | _, drift, [] => ([], drift)
  | r, drift, row :: rest =>
    let p1 := populateRowOps idx cols r 0 drift row
    let p2 := populateRowsOps idx cols (r + 1) p1.2 rest
    (p1.1 ++ p2.1, p2.2)

/-- Modelled from the spec: the ordered request sequence of
TableOperationManager.create_and_populate_table (section 4.3 and the section 8
scenario 2): an InsertTable, the header-row InsertTexts, a bold FormatText
over the header row's final offset span when requested, then the data-row
InsertTexts. -/
def create_and_populate_table_ops (idx : Nat) (data : List (List String)) (boldHeaders : Bool) : List Request :=
  let rows := data.length
  let cols := (data.headD []).length
  let tableOp := Request.insertTable (idx : Int) (rows : Int) (cols : Int)
  match data with
  | [] => [tableOp]
  | hdr :: rest =>
    let p1 := populateRowOps idx cols 0 0 0 hdr
    let fmtOps : List Request :=
      if boldHeaders then
        [Request.formatText ((cellIns idx cols 0 0 : Nat) : Int) (some ((cellIns idx cols 0 (cols - 1) + p1.2 : Nat) : Int)) (some true) none none none none]
      else []
    let p2 := populateRowsOps idx cols 1 p1.2 rest
    tableOp :: (p1.1 ++ fmtOps ++ p2.1)

/-- Token-level model of the linear document address space: structural
boundary markers and text characters, one token per offset. -/
inductive Tok where
  | filler
  | tableTok
  | rowTok
  | cellTok
  | paraTok
  | ch (c : Char)
  deriving DecidableEq, Repr

/-- The token sequence of a freshly inserted empty rows x cols table. -/
def tableTokens (rows cols : Nat) : List Tok :=
  [Tok.tableTok] ++ (List.range rows).flatMap (fun _ => [Tok.rowTok] ++ (List.range cols).flatMap (fun _ => [Tok.cellTok, Tok.paraTok]))

/-- The document right after InsertTable(idx, rows, cols): idx leading offsets
of pre-existing content, then the fresh table. -/
def initialTableDoc (idx rows cols : Nat) : List Tok :=
  List.replicate idx Tok.filler ++ tableTokens rows cols

/-- Applying one request to the token document: InsertText splices its text at
its offset; the other requests do not change textual content. -/
def applyReq (d : List Tok) : Request → List Tok
  | Request.insertText i t => d.take i.toNat ++ t.data.map Tok.ch ++ d.drop i.toNat
  | _ => d

/-- Reading back the table cells of a token document: a row marker opens a
row, a cell marker opens a cell, and characters accumulate in the current
cell. -/
def extractCells (d : List Tok) : List (List String) :=
  let step : List (List (List Char)) → Tok → List (List (List Char)) :=
    fun acc t =>
      match t with
      | Tok.rowTok => [] :: acc
      | Tok.cellTok =>
        match acc with
        | r :: rs => ([] :: r) :: rs
        | [] => acc
      | Tok.ch c =>
        match acc with
        | (cell :: cs) :: rs => ((cell ++ [c]) :: cs) :: rs
        | x => x
      | _ => acc
  (d.foldl step []).reverse.map (fun r => r.reverse.map (fun cell => String.mk cell))

/-- Document body elements of the nested document tree walked by
get_doc_content (docs_tools.py lines 136-167): a paragraph carries the
contents of its text runs, a table carries rows of cells of nested content,
and other stands for elements that are neither. -/
inductive DocElement where
  | para (runs : List String)
  | table (rows : List (List (List DocElement)))
  | other

/-- The tab header format constant of docs_tools.py line 134. -/
def TAB_HEADER_FORMAT (tab_name : String) : String :=
  "\n--- TAB: " ++ tab_name ++ " ---\n"

/-- One pass over the cells of a table row (docs_tools.py lines 160-166);
recNest extracts a nested cell content list at the next depth, and blank cell
text is skipped. -/
def extractCellsGo (recNest : List DocElement → String) : List (List DocElement) → String
  | [] => ""
  | c :: cs =>
    let t := recNest c
    (if t.trim = "" then "" else t) ++ extractCellsGo recNest cs

/-- One pass over the rows of a table (docs_tools.py lines 159-166). -/
def extractTableRowsGo (recNest : List DocElement → String) : List (List (List DocElement)) → String
  | [] => ""
  | r :: rs => extractCellsGo recNest r ++ extractTableRowsGo recNest rs

/-- One pass over a list of sibling elements (docs_tools.py lines 145-166):
paragraph run text is concatenated and kept when non-blank, tables recurse
into their cells through recNest. -/
def extractElemsGo (recNest : List DocElement → String) : List DocElement → String
  | [] => ""
  | e :: es =>
    (match e with
     | DocElement.para runs =>
       let t := String.join runs
       if t.trim = "" then "" else t
     | DocElement.table rows => extractTableRowsGo recNest rows
     | DocElement.other => "") ++ extractElemsGo recNest es

/-- Depth-limited extraction indexed by the remaining nesting allowance:
allowance a corresponds to python depth 5 - a, so at allowance 0 (python
depth 5) a table cell call (python depth 6, greater than the ceiling)
contributes nothing. -/
def extractWithAllowance : Nat → List DocElement → String
  | 0, els => extractElemsGo (fun _ => "") els
  | a + 1, els => extractElemsGo (extractWithAllowance a) els

/-- The extract_text_from_elements walk of get_doc_content (docs_tools.py
lines 136-167): empty for depth greater than 5, otherwise the optional tab
header followed by the extracted text, with table cells recursing one depth
deeper. -/
def extract_text_from_elements (elements : List DocElement) (tab_name : Option String) (depth : Nat) : String :=
  if depth > 5 then ""
  else
    (match tab_name with
     | some n => TAB_HEADER_FORMAT n
     | none => "") ++ extractWithAllowance (5 - depth) elements

/-- A document tab: optionally a documentTab payload (title and body content)
and a list of nested child tabs (docs_tools.py lines 169-186). -/
inductive DocTab where
  | mk (documentTab : Option (Option String × List DocElement)) (childTabs : List DocTab)

/-- The python indentation "    " repeated level times. -/
def tabIndent (level : Nat) : String :=
  String.join (List.replicate level "    ")

mutual
/-- The process_tab_hierarchy walk of get_doc_content (docs_tools.py lines
169-186): extracts the tab body at depth 0 under an indented title, then
recurses into the child tabs with level + 1 and no depth ceiling. -/
def process_tab_hierarchy : DocTab → Nat → String
  | DocTab.mk documentTab childTabs, level =>
    (match documentTab with
     | some (titleOpt, body) =>
       let title0 := titleOpt.getD "Untitled Tab"
       let title := if level > 0 then tabIndent level ++ title0 else title0
       extract_text_from_elements body (some title) 0
     | none => "") ++ processChildTabs childTabs (level + 1)

/-- The child-tab loop of process_tab_hierarchy (docs_tools.py lines 182-184). -/
def processChildTabs : List DocTab → Nat → String
  | [], _ => ""
  | t :: ts, l => process_tab_hierarchy t l ++ processChildTabs ts l
end

/-- A tab chain whose only content sits at tab nesting level 6 (beyond the
claimed ceiling of 5) when processed from level 0. -/
def deepTab : DocTab :=
  DocTab.mk none [DocTab.mk none [DocTab.mk none [DocTab.mk none [DocTab.mk none [DocTab.mk none [DocTab.mk (some (some "Deep", [DocElement.para ["deep content\n"]])) []]]]]]]

/-- One table of the find_tables output of gdocs/docs_structure (absent from
this snapshot), as consumed by debug_table_structure. -/
structure TableInfo where
  rows : Nat
  columns : Nat
  start_index : Int
  end_index : Int
  deriving DecidableEq, Repr

/-- A run of debug_table_structure after the document fetch: whether the table
debug rendering was reached, and the returned text. -/
structure DebugRun where
  processed : Bool
  output : String
  deriving Repr

/-- The table debug rendering of debug_table_structure (docs_tools.py lines
951-977, abridged to the fields of TableInfo), using python list indexing
semantics for the in-range access. -/
def renderTableDebug (tables : List TableInfo) (table_index : Int) : String :=
  let i : Nat := (if table_index < 0 then (tables.length : Int) + table_index else table_index).toNat
  match tables.get? i with
  | some t =>
    "Table structure debug for table " ++ toString table_index ++ ": dimensions " ++ toString t.rows ++ "x" ++ toString t.columns ++ ", range [" ++ toString t.start_index ++ "-" ++ toString t.end_index ++ "]"
  | none => ""

/-- The debug_table_structure tool after its document fetch (docs_tools.py
lines 947-977): an out-of-range table index yields an error text and no
further processing. -/
def debug_table_structure (tables : List TableInfo) (table_index : Int) : DebugRun :=
  if (tables.length : Int) ≤ table_index then
    { processed := false,
      output := "Error: Table index " ++ toString table_index ++ " not found. Document has " ++ toString tables.length ++ " table(s)." }
  else
    { processed := true, output := renderTableDebug tables table_index }

/-- A UTF-8 continuation byte. -/
abbrev isCont (b : Nat) : Prop := 128 ≤ b ∧ b ≤ 191

/-- Strict UTF-8 decoding of a byte list, as python bytes.decode("utf-8"):
none exactly when the bytes are not valid UTF-8 (RFC 3629: no overlong forms,
no surrogates, nothing above U+10FFFF, no truncated sequences). -/
def utf8DecodeChars : List Nat → Option (List Char)
  | [] => some []
  | b :: rest =>
    if b < 128 then
      (utf8DecodeChars rest).map (fun cs => Char.ofNat b :: cs)
    else if 194 ≤ b ∧ b ≤ 223 then
      match rest with
      | c1 :: rest2 =>
        if isCont c1 then
          (utf8DecodeChars rest2).map (fun cs => Char.ofNat ((b - 192) * 64 + (c1 - 128)) :: cs)
        else none
      | [] => none
    else if b = 224 then
      match rest with
      | c1 :: c2 :: rest2 =>
        if 160 ≤ c1 ∧ c1 ≤ 191 ∧ isCont c2 then
          (utf8DecodeChars rest2).map (fun cs => Char.ofNat ((b - 224) * 4096 + (c1 - 128) * 64 + (c2 - 128)) :: cs)
        else none
      | _ => none
    else if 225 ≤ b ∧ b ≤ 236 then
      match rest with
      | c1 :: c2 :: rest2 =>
        if isCont c1 ∧ isCont c2 then
          (utf8DecodeChars rest2).map (fun cs => Char.ofNat ((b - 224) * 4096 + (c1 - 128) * 64 + (c2 - 128)) :: cs)
        else none
      | _ => none
    else if b = 237 then
      match rest with
      | c1 :: c2 :: rest2 =>
        if 128 ≤ c1 ∧ c1 ≤ 159 ∧ isCont c2 then
          (utf8DecodeChars rest2).map (fun cs => Char.ofNat ((b - 224) * 4096 + (c1 - 128) * 64 + (c2 - 128)) :: cs)
        else none
      | _ => none
    else if 238 ≤ b ∧ b ≤ 239 then
      match rest with
      | c1 :: c2 :: rest2 =>
        if isCont c1 ∧ isCont c2 then
          (utf8DecodeChars rest2).map (fun cs => Char.ofNat ((b - 224) * 4096 + (c1 - 128) * 64 + (c2 - 128)) :: cs)
        else none
      | _ => none
    else if b = 240 then
      match rest with
      | c1 :: c2 :: c3 :: rest2 =>
        if 144 ≤ c1 ∧ c1 ≤ 191 ∧ isCont c2 ∧ isCont c3 then
          (utf8DecodeChars rest2).map (fun cs => Char.ofNat ((b - 240) * 262144 + (c1 - 128) * 4096 + (c2 - 128) * 64 + (c3 - 128)) :: cs)
        else none
      | _ => none
    else if 241 ≤ b ∧ b ≤ 243 then
      match rest with
      | c1 :: c2 :: c3 :: rest2 =>
        if isCont c1 ∧ isCont c2 ∧ isCont c3 then
          (utf8DecodeChars rest2).map (fun cs => Char.ofNat ((b - 240) * 262144 + (c1 - 128) * 4096 + (c2 - 128) * 64 + (c3 - 128)) :: cs)
        else none
      | _ => none
    else if b = 244 then
      match rest with
      | c1 :: c2 :: c3 :: rest2 =>
        if 128 ≤ c1 ∧ c1 ≤ 143 ∧ isCont c2 ∧ isCont c3 then
          (utf8DecodeChars rest2).map (fun cs => Char.ofNat ((b - 240) * 262144 + (c1 - 128) * 4096 + (c2 - 128) * 64 + (c3 - 128)) :: cs)
        else none
      | _ => none
    else none

/-- Strict UTF-8 decoding to a string, none when invalid. -/
def utf8Decode (bs : List Nat) : Option String :=
  (utf8DecodeChars bs).map (fun cs => String.mk cs)

/-- The body text computed by get_doc_content for a non-Google-Docs Drive file
(docs_tools.py lines 229-239): the Office XML extraction outcome when truthy,
else the UTF-8 decoding of the bytes, else the binary placeholder (the
UnicodeDecodeError handler). The extract_office_xml_text collaborator of
core/utils (absent from this snapshot) is abstracted as its outcome. -/
def driveFileBody (mime_type : String) (file_content_bytes : List Nat) (office_text : Option String) : String :=
  if truthyStr office_text then office_text.getD ""
  else
    match utf8Decode file_content_bytes with
    | some s => s
    | none => "[Binary or unsupported text encoding for mimeType " ++ mime_type ++ " - " ++ toString file_content_bytes.length ++ " bytes]"

/-- The full text returned by get_doc_content for a non-Google-Docs Drive
file: metadata header then the body (docs_tools.py lines 241-245). -/
def get_doc_content_drive (file_name document_id mime_type web_view_link : String) (file_content_bytes : List Nat) (office_text : Option String) : String :=
  "File: " ++ file_name ++ " (ID: " ++ document_id ++ ", Type: " ++ mime_type ++ ")\nLink: " ++ web_view_link ++ "\n\n--- CONTENT ---\n" ++ driveFileBody mime_type file_content_bytes office_text

/-- No request addresses offset 0: insert-type requests never target index 0
(and land at 1 exactly when the tool parameter asked for 0), and range-type
requests never start at 0. -/
def noZeroAddress (requested : Int) : Request → Prop
  | Request.insertText i _ => i ≠ 0 ∧ (requested = 0 → i = 1)
  | Request.deleteRange s _ => s ≠ 0
  | Request.formatText s _ _ _ _ _ _ => s ≠ 0
  | Request.insertTable i _ _ => i ≠ 0 ∧ (requested = 0 → i = 1)
  | Request.insertPageBreak i => i ≠ 0 ∧ (requested = 0 → i = 1)
  | Request.insertImage i _ _ _ => i ≠ 0 ∧ (requested = 0 → i = 1)
  | Request.bulletList s _ _ => s ≠ 0
  | Request.findReplace _ _ _ => True

theorem validate_index_range_true_iff (s e : Int) :
    (validate_index_range s e).1 = true ↔ 0 ≤ s ∧ s < e := by
  unfold validate_index_range
  split
  · next h => simp; omega
  · next h =>
    split
    · next h2 => simp; omega
    · next h2 => simp; omega

/-- Claim C7: validate_index_range succeeds on all non-negative start < end,
fails whenever end <= start (including end = start), and fails whenever start
or end is negative. -/
theorem c7_validate_index_range_spec :
    (∀ s e : Int, 0 ≤ s → s < e → (validate_index_range s e).1 = true) ∧
    (∀ s e : Int, e ≤ s → (validate_index_range s e).1 = false) ∧
    (∀ s e : Int, s < 0 → (validate_index_range s e).1 = false) ∧
    (∀ s e : Int, e < 0 → (validate_index_range s e).1 = false) := by
  refine ⟨fun s e h0 h1 => (validate_index_range_true_iff s e).2 ⟨h0, h1⟩, ?_, ?_, ?_⟩ <;>
    intro s e h <;>
    exact Bool.eq_false_iff.2 (fun ht => by
      have := (validate_index_range_true_iff s e).1 ht
      omega)

/-- Witness for C7 at concrete inputs. -/
theorem c7_validate_index_range_spec_witness :
    (validate_index_range 0 3).1 = true ∧ (validate_index_range 3 3).1 = false ∧
    (validate_index_range (-1) 3).1 = false ∧ (validate_index_range 0 (-2)).1 = false :=
  ⟨c7_validate_index_range_spec.1 0 3 (by decide) (by decide),
   c7_validate_index_range_spec.2.1 3 3 (by decide),
   c7_validate_index_range_spec.2.2.1 (-1) 3 (by decide),
   c7_validate_index_range_spec.2.2.2 0 (-2) (by decide)⟩

/-- Claim C9: for every table_index at or beyond the number of tables found,
debug_table_structure returns the not-found error text and performs no further
processing. -/
theorem c9_debug_table_index_error :
    ∀ (tables : List TableInfo) (table_index : Int),
      (tables.length : Int) ≤ table_index →
      (debug_table_structure tables table_index).processed = false ∧
      (debug_table_structure tables table_index).output =
        "Error: Table index " ++ toString table_index ++ " not found. Document has " ++ toString tables.length ++ " table(s)." := by
  intro tables ti h
  unfold debug_table_structure
  rw [if_pos h]
  exact ⟨rfl, rfl⟩

/-- Witness for C9 on an empty table list. -/
theorem c9_debug_table_index_error_witness :
    (debug_table_structure [] 0).processed = false ∧
    (debug_table_structure [] 0).output =
      "Error: Table index " ++ toString (0 : Int) ++ " not found. Document has " ++ toString (List.length ([] : List TableInfo)) ++ " table(s)." :=
  c9_debug_table_index_error [] 0 (by decide)

/-- Claim C10: when the Office XML extraction yields nothing truthy and the
downloaded bytes are not valid UTF-8, get_doc_content's Drive branch returns
the binary placeholder naming the mime type and byte count instead of
raising. -/
theorem c10_drive_body_placeholder :
    ∀ (mime : String) (bytes : List Nat) (office : Option String),
      truthyStr office = false → utf8Decode bytes = none →
      driveFileBody mime bytes office =
        "[Binary or unsupported text encoding for mimeType " ++ mime ++ " - " ++ toString bytes.length ++ " bytes]" := by
  intro mime bytes office h1 h2
  unfold driveFileBody
  rw [h1, h2]
  simp

/-- Witness for C10 on a one-byte invalid UTF-8 file. -/
theorem c10_drive_body_placeholder_witness :
    driveFileBody "application/pdf" [255] none =
      "[Binary or unsupported text encoding for mimeType " ++ "application/pdf" ++ " - " ++ toString (List.length [255]) ++ " bytes]" :=
  c10_drive_body_placeholder "application/pdf" [255] none rfl rfl

theorem batchValidation_empty (docId : String) :
    ∃ m, batchValidation docId [] = some m := by
  unfold batchValidation
  split
  · exact ⟨_, rfl⟩
  · split
    · exact ⟨_, rfl⟩
    · next h => exact absurd rfl h

theorem batchValidation_none_ne_nil {docId : String} {ops : List BatchIntent}
    (h : batchValidation docId ops = none) : ops ≠ [] := by
  intro hne
  subst hne
  obtain ⟨m, hm⟩ := batchValidation_empty docId
  rw [h] at hm
  cases hm

/-- Claim C6: batch_update_doc given an empty operations list fails validation
with a descriptive Error-prefixed message, and the batch manager is never
invoked with the empty list (zero network calls). -/
theorem c6_batch_empty_rejected :
    ∀ (mgr : List BatchIntent → Bool × String × Nat) (docId : String),
      ((batch_update_doc mgr docId []).mgrCalls = [] ∧
       ∃ m, (batch_update_doc mgr docId []).output = "Error: " ++ m) ∧
      ∀ ops, [] ∉ (batch_update_doc mgr docId ops).mgrCalls := by
  intro mgr docId
  constructor
  · obtain ⟨m, hm⟩ := batchValidation_empty docId
    unfold batch_update_doc
    rw [hm]
    exact ⟨rfl, m, rfl⟩
  · intro ops
    unfold batch_update_doc
    cases h : batchValidation docId ops with
    | some msg => simp
    | none =>
      have hne := batchValidation_none_ne_nil h
      intro hh
      split at hh
      · simp at hh
      · split at hh <;> (rw [List.mem_singleton] at hh; exact hne hh.symm)

/-- Claim C4: for each of modify_doc_text, update_doc_headers_footers,
batch_update_doc and create_table_with_data, every input failing a validation
check yields a text result carrying the failing message behind an Error: or
ERROR: prefix, with zero network calls (no batch transmitted, no manager
invoked) before returning. -/
theorem c4_validation_errors_no_network :
    (∀ (a : ModifyArgs) (msg : String), modifyValidation a = some msg →
      (modify_doc_text a).batches = [] ∧ (modify_doc_text a).output = "Error: " ++ msg) ∧
    (∀ (mgr : Unit → Bool × String) (a : HFArgs) (msg : String), hfValidation a = some msg →
      (update_doc_headers_footers mgr a).mgrCalls = 0 ∧ (update_doc_headers_footers mgr a).output = "Error: " ++ msg) ∧
    (∀ (mgr : List BatchIntent → Bool × String × Nat) (docId : String) (ops : List BatchIntent) (msg : String), batchValidation docId ops = some msg →
      (batch_update_doc mgr docId ops).mgrCalls = [] ∧ (batch_update_doc mgr docId ops).output = "Error: " ++ msg) ∧
    (∀ (mgr : Int → MgrResult) (a : TableArgs) (msg : String), tableValidation a = some msg →
      (create_table_with_data mgr a).attempts = [] ∧ (create_table_with_data mgr a).output = "ERROR: " ++ msg) := by
  refine ⟨?_, ?_, ?_, ?_⟩
  · intro a msg h
    unfold modify_doc_text
    rw [h]
    exact ⟨rfl, rfl⟩
  · intro mgr a msg h
    unfold update_doc_headers_footers
    rw [h]
    exact ⟨rfl, rfl⟩
  · intro mgr docId ops msg h
    unfold batch_update_doc
    rw [h]
    exact ⟨rfl, rfl⟩
  · intro mgr a msg h
    unfold create_table_with_data
    rw [h]
    exact ⟨rfl, rfl⟩

/-- Witness for C4: one concrete validation failure per tool. -/
theorem c4_validation_errors_no_network_witness :
    ((modify_doc_text ⟨"", 0, none, none, none, none, none, none, none⟩).batches = [] ∧
     (modify_doc_text ⟨"", 0, none, none, none, none, none, none, none⟩).output = "Error: " ++ "Document ID cannot be empty") ∧
    ((update_doc_headers_footers (fun _ => (true, "ok")) ⟨"d", "banner", "x", "DEFAULT"⟩).mgrCalls = 0 ∧
     (update_doc_headers_footers (fun _ => (true, "ok")) ⟨"d", "banner", "x", "DEFAULT"⟩).output = "Error: " ++ "section_type must be header or footer") ∧
    ((batch_update_doc (fun _ => (true, "ok", 0)) "d" []).mgrCalls = [] ∧
     (batch_update_doc (fun _ => (true, "ok", 0)) "d" []).output = "Error: " ++ "Operations list cannot be empty") ∧
    ((create_table_with_data (fun _ => ⟨true, "ok", 0, 0⟩) ⟨"d", [], 0, true⟩).attempts = [] ∧
     (create_table_with_data (fun _ => ⟨true, "ok", 0, 0⟩) ⟨"d", [], 0, true⟩).output = "ERROR: " ++ "Table data cannot be empty") :=
  ⟨c4_validation_errors_no_network.1 _ _ rfl,
   c4_validation_errors_no_network.2.1 _ _ _ rfl,
   c4_validation_errors_no_network.2.2.1 _ _ _ _ rfl,
   c4_validation_errors_no_network.2.2.2 _ _ _ rfl⟩

theorem tableResultRender_attempts (i : Int) (att : List Int) (r : MgrResult) :
    (tableResultRender i att r).attempts = att := by
  unfold tableResultRender
  split <;> rfl

theorem create_table_attempts_of_valid (mgr : Int → MgrResult) (a : TableArgs)
    (h : tableValidation a = none) :
    (create_table_with_data mgr a).attempts =
      if (mgr a.index).success = false ∧ strContains (mgr a.index).message boundaryNeedle = true then
        [a.index, a.index - 1]
      else [a.index] := by
  have hrw : create_table_with_data mgr a =
      if (mgr a.index).success = false ∧ strContains (mgr a.index).message boundaryNeedle = true then
        tableResultRender a.index [a.index, a.index - 1] (mgr (a.index - 1))
      else tableResultRender a.index [a.index] (mgr a.index) := by
    unfold create_table_with_data
    rw [h]
  rw [hrw]
  by_cases hc : ((mgr a.index).success = false ∧ strContains (mgr a.index).message boundaryNeedle = true)
  · rw [if_pos hc, if_pos hc, tableResultRender_attempts]
  · rw [if_neg hc, if_neg hc, tableResultRender_attempts]

/-- Claim C2: create_table_with_data retries exactly once, with index
decremented by 1, when and only when the first manager attempt fails with a
message containing the boundary-error text; any other failure gets no retry,
and no execution issues more than one retry (at most two attempts). -/
theorem c2_boundary_retry_once :
    ∀ (mgr : Int → MgrResult) (a : TableArgs),
      (create_table_with_data mgr a).attempts.length ≤ 2 ∧
      (tableValidation a = none →
        (((mgr a.index).success = false ∧ strContains (mgr a.index).message boundaryNeedle = true) →
          (create_table_with_data mgr a).attempts = [a.index, a.index - 1]) ∧
        (((mgr a.index).success = true ∨ strContains (mgr a.index).message boundaryNeedle = false) →
          (create_table_with_data mgr a).attempts = [a.index])) := by
  intro mgr a
  cases h : tableValidation a with
  | some msg =>
    constructor
    · have : (create_table_with_data mgr a).attempts = [] := by
        unfold create_table_with_data
        rw [h]
      rw [this]
      decide
    · intro hn
      exact Option.noConfusion hn
  | none =>
    have key := create_table_attempts_of_valid mgr a h
    constructor
    · rw [key]
      split <;> simp
    · intro _
      constructor
      · intro hc
        rw [key, if_pos hc]
      · intro hc
        rw [key, if_neg ?_]
        rcases hc with hc | hc
        · rintro ⟨h1, _⟩
          rw [hc] at h1
          cases h1
        · rintro ⟨_, h2⟩
          rw [hc] at h2
          cases h2

/-- Witness for C2: a first attempt failing with the boundary message at index
10 is retried exactly once at index 9. -/
theorem c2_boundary_retry_once_witness :
    (create_table_with_data
      (fun i => if i = 10 then ⟨false, "Index 10 must be less than the end index of the segment", 0, 0⟩ else ⟨true, "created", 2, 3⟩)
      ⟨"d", [["A"]], 10, true⟩).attempts = [10, 10 - 1] :=
  (((c2_boundary_retry_once
      (fun i => if i = 10 then ⟨false, "Index 10 must be less than the end index of the segment", 0, 0⟩ else ⟨true, "created", 2, 3⟩)
      ⟨"d", [["A"]], 10, true⟩).2 (by decide)).1 (by decide))

/-- Claim C5: on table_data [[A,B],[1,2]] with bold headers,
create_and_populate_table (here at the requested index 10) emits an
InsertTable, then the two header-cell InsertTexts, then a bold FormatText
over the header row range, then the two data-row InsertTexts, each insertion
at an offset already compensated for the drift of the prior insertions of the
same pass; replaying the batch against the token document model lands every
value in its own cell. -/
theorem c5_create_table_scenario :
    create_and_populate_table_ops 10 [["A", "B"], ["1", "2"]] true =
      [Request.insertTable 10 2 2,
       Request.insertText 14 "A",
       Request.insertText 17 "B",
       Request.formatText 14 (some 18) (some true) none none none none,
       Request.insertText 21 "1",
       Request.insertText 24 "2"] ∧
    extractCells ((create_and_populate_table_ops 10 [["A", "B"], ["1", "2"]] true).foldl applyReq (initialTableDoc 10 2 2)) =
      [["A", "B"], ["1", "2"]] :=
  ⟨by decide, by decide⟩

/-- Claim C3 counterexample: a tab chain with content only at tab nesting
level 6 (beyond the claimed hard ceiling of 5) still contributes its text, so
nesting beyond depth 5 is not truncated for tabs nested inside tabs. -/
theorem c3_deep_tab_contributes :
    process_tab_hierarchy deepTab 0 ≠ "" := by
  decide

/-- Claim C3 (amended): the element walk extract_text_from_elements is
depth-bounded with a hard ceiling of 5 — any call beyond depth 5 contributes
nothing — but the tab walk process_tab_hierarchy has no depth ceiling: tabs
nested beyond depth 5 still contribute their content (each tab body restarts
at element depth 0), and traversal terminates on every (finite) tree. -/
theorem c3_element_depth_ceiling_tabs_unbounded :
    (∀ (elements : List DocElement) (tab_name : Option String) (depth : Nat),
      5 < depth → extract_text_from_elements elements tab_name depth = "") ∧
    process_tab_hierarchy deepTab 0 ≠ "" := by
  constructor
  · intro els t d hd
    unfold extract_text_from_elements
    rw [if_pos hd]
  · decide

/-- Witness for the amended C3 depth-ceiling part at depth 6. -/
theorem c3_element_depth_ceiling_tabs_unbounded_witness :
    extract_text_from_elements [DocElement.para ["hello"]] none 6 = "" :=
  c3_element_depth_ceiling_tabs_unbounded.1 [DocElement.para ["hello"]] none 6 (by decide)

theorem bumpIndex_spec (i : Int) : bumpIndex i ≠ 0 ∧ (i = 0 → bumpIndex i = 1) := by
  unfold bumpIndex
  by_cases h0 : i = 0
  · rw [if_pos h0]
    exact ⟨by decide, fun _ => rfl⟩
  · rw [if_neg h0]
    exact ⟨h0, fun hq => absurd hq h0⟩

theorem mem_emitted_modify {a : ModifyArgs} {r : Request}
    (h : r ∈ emittedOf (modify_doc_text a)) :
    modifyValidation a = none ∧ r ∈ modifyRequests a := by
  unfold emittedOf modify_doc_text at h
  cases hv : modifyValidation a with
  | some msg =>
    rw [hv] at h
    simp at h
  | none =>
    rw [hv] at h
    simp at h
    exact ⟨rfl, h⟩

theorem ite_bump_ne_zero (x : Int) : (if x = 0 then (1 : Int) else x) ≠ 0 := by
  by_cases h : x = 0
  · rw [if_pos h]
    decide
  · rw [if_neg h]
    exact h

theorem textRequests_noZero {a : ModifyArgs} {r : Request}
    (h : r ∈ textRequests a) : noZeroAddress a.start_index r := by
  unfold textRequests at h
  cases ht : a.text with
  | none =>
    rw [ht] at h
    simp at h
  | some t =>
    rw [ht] at h
    have hlen : (0 : Int) ≤ (t.length : Int) := Int.ofNat_nonneg _
    cases he : a.end_index with
    | none =>
      rw [he] at h
      simp at h
      subst h
      by_cases h0 : a.start_index = 0 <;> simp [noZeroAddress, h0]
    | some e =>
      rw [he] at h
      simp at h
      by_cases hlt : a.start_index < e
      · rw [if_pos hlt] at h
        by_cases h0 : a.start_index = 0
        · rw [if_pos h0] at h
          simp at h
          rcases h with h | h <;> subst h
          · simp [noZeroAddress, h0]
          · simp only [noZeroAddress]
            omega
        · rw [if_neg h0] at h
          simp at h
          rcases h with h | h <;> subst h <;> simp [noZeroAddress, h0]
      · rw [if_neg hlt] at h
        simp at h
        subst h
        by_cases h0 : a.start_index = 0 <;> simp [noZeroAddress, h0]

theorem formatRequests_noZero {a : ModifyArgs} {r : Request}
    (h : r ∈ formatRequests a) : noZeroAddress a.start_index r := by
  unfold formatRequests at h
  by_cases hf : fmtRequested a = true
  · rw [if_pos hf] at h
    simp at h
    subst h
    simp only [noZeroAddress]
    exact ite_bump_ne_zero _
  · rw [if_neg hf] at h
    simp at h

theorem elements_noZero {a : ElemArgs} {r : Request}
    (h : r ∈ emittedOf (insert_doc_elements a)) : noZeroAddress a.index r := by
  obtain ⟨hb1, hb2⟩ := bumpIndex_spec a.index
  unfold emittedOf insert_doc_elements at h
  by_cases h1 : a.element_type = "table"
  · rw [if_pos h1] at h
    by_cases h2 : (truthyInt a.rows = false ∨ truthyInt a.columns = false)
    · rw [if_pos h2] at h
      simp at h
    · rw [if_neg h2] at h
      simp at h
      subst h
      simp only [noZeroAddress]
      exact ⟨hb1, hb2⟩
  · rw [if_neg h1] at h
    by_cases h3 : a.element_type = "list"
    · rw [if_pos h3] at h
      by_cases h4 : truthyStr a.list_type = false
      · rw [if_pos h4] at h
        simp at h
      · rw [if_neg h4] at h
        simp at h
        rcases h with h | h <;> subst h <;> simp only [noZeroAddress]
        · exact ⟨hb1, hb2⟩
        · exact hb1
    · rw [if_neg h3] at h
      by_cases h5 : a.element_type = "page_break"
      · rw [if_pos h5] at h
        simp at h
        subst h
        simp only [noZeroAddress]
        exact ⟨hb1, hb2⟩
      · rw [if_neg h5] at h
        simp at h

theorem image_noZero {lookup : Except String (String × String)} {a : ImageArgs} {r : Request}
    (h : r ∈ emittedOf (insert_doc_image lookup a)) : noZeroAddress a.index r := by
  obtain ⟨hb1, hb2⟩ := bumpIndex_spec a.index
  unfold emittedOf insert_doc_image at h
  by_cases h1 : (!(a.image_source.startsWith "http://" || a.image_source.startsWith "https://")) = true
  · rw [if_pos h1] at h
    cases lookup with
    | error e => simp at h
    | ok pr =>
      obtain ⟨mime, name⟩ := pr
      simp only [] at h
      by_cases h2 : (!(mime.startsWith "image/")) = true
      · rw [if_pos h2] at h
        simp at h
      · rw [if_neg h2] at h
        simp at h
        subst h
        simp only [noZeroAddress]
        exact ⟨hb1, hb2⟩
  · rw [if_neg h1] at h
    simp at h
    subst h
    simp only [noZeroAddress]
    exact ⟨hb1, hb2⟩

/-- Claim C1: no request batch transmitted by modify_doc_text,
insert_doc_elements or insert_doc_image addresses offset 0 — an insertion
requested at start_index/index 0 is emitted at index 1, and no delete (or
other range-typed) request starting at 0 is ever emitted. -/
theorem c1_offset_zero_redirection :
    (∀ (a : ModifyArgs) (r : Request), r ∈ emittedOf (modify_doc_text a) → noZeroAddress a.start_index r) ∧
    (∀ (a : ElemArgs) (r : Request), r ∈ emittedOf (insert_doc_elements a) → noZeroAddress a.index r) ∧
    (∀ (lookup : Except String (String × String)) (a : ImageArgs) (r : Request),
      r ∈ emittedOf (insert_doc_image lookup a) → noZeroAddress a.index r) := by
  refine ⟨?_, ?_, ?_⟩
  · intro a r h
    obtain ⟨_, hm⟩ := mem_emitted_modify h
    unfold modifyRequests at hm
    rcases List.mem_append.1 hm with hm | hm
    · exact textRequests_noZero hm
    · exact formatRequests_noZero hm
  · intro a r h
    exact elements_noZero h
  · intro lookup a r h
    exact image_noZero h

/-- Witness for C1: replacement at start 0 emits the redirected insert at
index 1 and a shifted delete, never a zero start. -/
theorem c1_offset_zero_redirection_witness :
    noZeroAddress (0 : Int) (Request.deleteRange 3 7) :=
  c1_offset_zero_redirection.1 ⟨"doc", 0, some 5, some "hi", none, none, none, none, none⟩
    (Request.deleteRange 3 7) (by decide)

theorem textRequests_not_format {a : ModifyArgs} {s : Int} {e : Option Int}
    {b i u : Option Bool} {fsz : Option Int} {ff : Option String} :
    Request.formatText s e b i u fsz ff ∉ textRequests a := by
  intro h
  unfold textRequests at h
  cases ht : a.text with
  | none =>
    rw [ht] at h
    simp at h
  | some t =>
    rw [ht] at h
    cases he : a.end_index with
    | none =>
      rw [he] at h
      simp at h
    | some e0 =>
      rw [he] at h
      simp at h
      by_cases hlt : a.start_index < e0
      · rw [if_pos hlt] at h
        by_cases h0 : a.start_index = 0
        · rw [if_pos h0] at h
          simp at h
        · rw [if_neg h0] at h
          simp at h
      · rw [if_neg hlt] at h
        simp at h

theorem modifyValidation_none_fmt {a : ModifyArgs}
    (h : modifyValidation a = none) (hf : fmtRequested a = true) :
    ∃ e, a.end_index = some e ∧ 0 ≤ a.start_index ∧ a.start_index < e := by
  unfold modifyValidation at h
  by_cases h1 : (validate_document_id a.document_id).1 = false
  · rw [if_pos h1] at h
    exact Option.noConfusion h
  · rw [if_neg h1] at h
    by_cases h2 : (a.text = none ∧ fmtRequested a = false)
    · rw [if_pos h2] at h
      exact Option.noConfusion h
    · rw [if_neg h2] at h
      rw [if_pos hf] at h
      by_cases h3 : (validate_text_formatting_params a.bold a.italic a.underline a.font_size a.font_family).1 = false
      · rw [if_pos h3] at h
        exact Option.noConfusion h
      · rw [if_neg h3] at h
        cases he : a.end_index with
        | none =>
          rw [he] at h
          simp at h
        | some e0 =>
          rw [he] at h
          simp at h
          exact ⟨e0, rfl, (validate_index_range_true_iff a.start_index e0).1 h⟩

/-- Claim C8: every FormatText request emitted by modify_doc_text has start at
least 1 and end strictly greater than start — a requested format start of 0
is bumped to 1, and a degenerate or inverted range is silently widened to
start + 1 rather than rejected. -/
theorem c8_format_range_invariant :
    ∀ (a : ModifyArgs) (s : Int) (e : Option Int) (b i u : Option Bool) (fsz : Option Int) (ff : Option String),
      Request.formatText s e b i u fsz ff ∈ emittedOf (modify_doc_text a) →
      1 ≤ s ∧ (∃ v, e = some v ∧ s < v) ∧ (a.start_index = 0 → s = 1) := by
  intro a s e b i u fsz ff h
  obtain ⟨hv, hm⟩ := mem_emitted_modify h
  unfold modifyRequests at hm
  rcases List.mem_append.1 hm with hm | hm
  · exact absurd hm textRequests_not_format
  · unfold formatRequests at hm
    by_cases hf : fmtRequested a = true
    · rw [if_pos hf] at hm
      obtain ⟨e0, he0, hs0, hlt0⟩ := modifyValidation_none_fmt hv hf
      rw [he0] at hm
      cases ht : a.text with
      | none =>
        rw [ht] at hm
        simp at hm
        obtain ⟨hs, he, -⟩ := hm
        subst hs
        subst he
        refine ⟨?_, ⟨_, rfl, ?_⟩, fun h0 => ?_⟩ <;> split_ifs <;> omega
      | some t =>
        rw [ht] at hm
        simp at hm
        rw [if_pos hlt0] at hm
        simp at hm
        obtain ⟨hs, he, -⟩ := hm
        subst hs
        subst he
        refine ⟨?_, ⟨_, rfl, ?_⟩, fun h0 => ?_⟩ <;> split_ifs <;> omega
    · rw [if_neg hf] at hm
      simp at hm

/-- Witness for C8: a formatting-only call on range 0..1 emits FormatText with
start bumped to 1 and the degenerate range widened to end 2. -/
theorem c8_format_range_invariant_witness :
    1 ≤ (1 : Int) ∧ (∃ v, (some 2 : Option Int) = some v ∧ (1 : Int) < v) ∧ ((0 : Int) = 0 → (1 : Int) = 1) :=
  c8_format_range_invariant ⟨"d", 0, some 1, none, some true, none, none, none, none⟩
    1 (some 2) (some true) none none none none (by decide)
